import Mathlib

/-!
Shallow embedding of the report-verification and session core of the
invasive-species-monitoring dashboard (src/js/main.js), together with
proofs of the specified properties.

The embedding models:
* the permission policy `canVerifyReports`;
* the in-memory mock repository (`mockData.reports` / `mockData.species`)
  with `getReportById` and `verifyReport`;
* the verification workflow entry points `showVerificationModal` and
  `submitVerification` as functions returning the resulting workflow
  state, surfaced message and repository;
* the localStorage-backed session store `saveUserSession`,
  `checkExistingLogin`, `clearUserSession` and the activity-log
  functions `trackUserLogin` / `trackUserLogout`; localStorage is
  modelled as a typed record (JSON stringify/parse of the plain records
  is the identity round-trip), and the environmental failure modes of
  the persistence medium (Storage unsupported, the test write throwing,
  writes that do not persist) are modelled by a `Medium` record.
-/

namespace IPSMS

/-- A user record as held in `currentUser` and localStorage. -/
structure User where
  id : String
  username : String
  full_name : String
  email : String
  user_type : String
deriving Repr, DecidableEq

/-- `canVerifyReports(user)` from src/js/main.js: false for a null user,
otherwise membership of `user.user_type` in the allowed list. -/
def canVerifyReports : Option User → Bool
  | none => false
  | some u => ["Researcher", "Administrator", "Government Official"].contains u.user_type

/-- A sighting report record from `mockData.reports`.  The optional
verification fields are absent on unverified seed records and are set by
`verifyReport`; `species_name` is only attached by `getReportById`. -/
structure Report where
  id : String
  species_id : String
  reporter_name : String
  notes : String
  verification_status : String
  verified_by : Option String
  verification_date : Option String
  verification_notes : Option String
  species_name : Option String
deriving Repr, DecidableEq

/-- A species record from `mockData.species` (only the fields the
verification core reads). -/
structure Species where
  id : String
  scientific_name : String
deriving Repr, DecidableEq

/-- The in-memory mock repository `this.mockData`. -/
structure MockData where
  reports : List Report
  species : List Species
deriving Repr, DecidableEq

/-- The `{...report, species_name: ...}` enrichment step of `getReportById`. -/
def enrich (db : MockData) (report : Report) : Report :=
  { report with
      species_name := some
        (match db.species.find? (fun s => s.id == report.species_id) with
         | some s => s.scientific_name
         | none => "Unknown Species") }

/-- `getReportById(id)` in mock mode: find the report, enrich it with the
species scientific name, or throw "Report not found". -/
def getReportById (db : MockData) (rid : String) : Except String Report :=
  match db.reports.find? (fun r => r.id == rid) with
  | some report => .ok (enrich db report)
  | none => .error "Report not found"

/-- The `Object.assign(report, verificationData)` step of `verifyReport`. -/
def applyVerificationData (r : Report) (verifierName status notes nowIso : String) : Report :=
  { r with
      verification_status := status,
      verified_by := some verifierName,
      verification_date := some nowIso,
      verification_notes := some notes }

/-- In-place mutation of the first list element satisfying `p`, as the JS
`find` + `Object.assign` pair mutates the array element it found. -/
def updateFirst (p : Report → Bool) (f : Report → Report) : List Report → List Report
  | [] => []
  | r :: rs => if p r then f r :: rs else r :: updateFirst p f rs

/-- `verifyReport(id, verifierName, status, notes)` in mock mode: find the
report, assign the verification fields in place and return the updated
record, or throw "Report not found" leaving the repository untouched.
`nowIso` stands for `new Date().toISOString()`. -/
def verifyReport (db : MockData) (rid verifierName status notes nowIso : String) :
    Except String Report × MockData :=
  match db.reports.find? (fun r => r.id == rid) with
  | some report =>
      (.ok (applyVerificationData report verifierName status notes nowIso),
       { db with
           reports := updateFirst (fun r => r.id == rid)
             (fun r => applyVerificationData r verifierName status notes nowIso) db.reports })
  | none => (.error "Report not found", db)

/-- States of the verification-workflow state machine (§4.4 of the spec). -/
inductive WfState where
  | Closed
  | LoadingReport
  | ReviewOpen
  | Submitting
deriving Repr, DecidableEq

/-- Outcome of `showVerificationModal`: the workflow state it ends in, the
message surfaced through showError (if any), whether `getReportById` was
invoked, and the repository afterwards (the function never mutates it). -/
structure OpenResult where
  state : WfState
  errorMsg : Option String
  fetchAttempted : Bool
  db : MockData
deriving Repr, DecidableEq

/-- `showVerificationModal(reportId)`: permission gate, then fetch; the modal
(state `ReviewOpen`) only appears after a successful fetch. -/
def showVerificationModal (currentUser : Option User) (db : MockData) (reportId : String) :
    OpenResult :=
  if currentUser.isNone then
    { state := .Closed,
      errorMsg := some "Please log in to verify reports.",
      fetchAttempted := false, db := db }
  else if !canVerifyReports currentUser then
    { state := .Closed,
      errorMsg := some "You do not have permission to verify reports. Only Researchers, Administrators, and Government Officials can verify reports.",
      fetchAttempted := false, db := db }
  else
    match getReportById db reportId with
    | .ok _ =>
        { state := .ReviewOpen, errorMsg := none, fetchAttempted := true, db := db }
    | .error _ =>
        { state := .Closed,
          errorMsg := some "Failed to load report details for verification.",
          fetchAttempted := true, db := db }

/-- Outcome of `submitVerification`: final workflow state, surfaced message,
the repository afterwards, and whether `verifyReport` was invoked. -/
structure SubmitResult where
  state : WfState
  message : Option String
  db : MockData
  applied : Bool
deriving Repr, DecidableEq

/-- `submitVerification(event, reportId)`: empty status or verifier name is a
validation failure (modal stays open, nothing written); otherwise
`verifyReport` runs, closing the modal on success and keeping it open with an
error on failure. -/
def submitVerification (status verifierName notes reportId : String) (db : MockData)
    (nowIso : String) : SubmitResult :=
  if status == "" || verifierName == "" then
    { state := .ReviewOpen,
      message := some "Please fill in all required fields.",
      db := db, applied := false }
  else
    match verifyReport db reportId verifierName status notes nowIso with
    | (.ok _, db2) =>
        { state := .Closed,
          message := some ("Report " ++ reportId.take 8 ++ " has been " ++ status.toLower ++ "!"),
          db := db2, applied := true }
    | (.error _, db2) =>
        { state := .ReviewOpen,
          message := some "Failed to submit verification. Please try again.",
          db := db2, applied := true }

/-- An entry of the admin activity log `ipsms_user_activity_log`. -/
structure ActivityEntry where
  id : String
  userId : String
  username : String
  fullName : String
  email : String
  userType : String
  loginTime : Nat
  logoutTime : Option Nat
  isActive : Bool
  sessionDuration : Option Int
  environment : String
  userAgent : String
deriving Repr, DecidableEq

/-- The matching condition `entry.userId === user.id || entry.username ===
user.username` used by both `trackUserLogin` and `trackUserLogout`. -/
def matchesUser (u : User) (e : ActivityEntry) : Bool :=
  e.userId == u.id || e.username == u.username

/-- The fresh login entry built by `trackUserLogin`; `user.id || user.username`
falls back to the username when the id is falsy (empty). -/
def loginEntry (u : User) (loginTime : Nat) (newId env ua : String) : ActivityEntry :=
  { id := newId,
    userId := if u.id == "" then u.username else u.id,
    username := u.username,
    fullName := u.full_name,
    email := u.email,
    userType := u.user_type,
    loginTime := loginTime,
    logoutTime := none,
    isActive := true,
    sessionDuration := none,
    environment := env,
    userAgent := ua }

/-- Deactivation of one entry at time `t`, as done inside the `forEach` of
`trackUserLogin` (only entries still active are touched). -/
def deactivateAt (t : Nat) (e : ActivityEntry) : ActivityEntry :=
  if e.isActive then
    { e with
        isActive := false,
        logoutTime := some t,
        sessionDuration := some ((t : Int) - (e.loginTime : Int)) }
  else e

/-- `trackUserLogin(user, loginTime)`: deactivate the user's previous entries,
append the new active entry, then keep only the last 100 entries
(`slice(-100)`). -/
def trackUserLogin (u : User) (loginTime : Nat) (newId env ua : String)
    (log : List ActivityEntry) : List ActivityEntry :=
  let marked := log.map (fun e => if matchesUser u e then deactivateAt loginTime e else e)
  let appended := marked ++ [loginEntry u loginTime newId env ua]
  if appended.length > 100 then appended.drop (appended.length - 100) else appended

/-- `trackUserLogout(user, logoutTime)`: mark the user's active entries
inactive in place, recording the logout time and session duration. -/
def trackUserLogout (u : User) (logoutTime : Nat) (log : List ActivityEntry) :
    List ActivityEntry :=
  log.map (fun e =>
    if matchesUser u e && e.isActive then
      { e with
          isActive := false,
          logoutTime := some logoutTime,
          sessionDuration := some ((logoutTime : Int) - (e.loginTime : Int)) }
    else e)

/-- The localStorage keys the session store reads and writes, typed.  JSON
serialization of the plain records is modelled as the identity. -/
structure LocalStorage where
  ipsms_user : Option User
  ipsms_session_expiry : Option Nat
  ipsms_login_time : Option Nat
  ipsms_environment : Option String
  ipsms_user_activity_log : List ActivityEntry
deriving Repr, DecidableEq

/-- Environmental behaviour of the persistence medium: whether the Storage API
exists at all, whether the probe write `setItem('ipsms_test', ...)` succeeds
without throwing, and whether writes actually persist (a non-persisting medium
is what the read-back verification step of `saveUserSession` defends
against). -/
structure Medium where
  available : Bool
  writeTestOk : Bool
  persist : Bool
deriving Repr, DecidableEq

/-- The 24-hour session lifetime in milliseconds: `24 * 60 * 60 * 1000`. -/
def sessionLifetimeMs : Nat := 24 * 60 * 60 * 1000

/-- The write phase of `saveUserSession`: the four session `setItem` calls plus
the activity-log update done by `trackUserLogin`.  On a medium whose writes do
not persist, the storage is unchanged. -/
def sessionWrites (m : Medium) (user : User) (now : Nat) (newId env ua : String)
    (ls : LocalStorage) : LocalStorage :=
  if m.persist then
    { ls with
        ipsms_user := some user,
        ipsms_session_expiry := some (now + sessionLifetimeMs),
        ipsms_login_time := some now,
        ipsms_environment := some env,
        ipsms_user_activity_log :=
          trackUserLogin user now newId env ua ls.ipsms_user_activity_log }
  else ls

/-- The read-back verification step of `saveUserSession`: both keys must read
back, the parsed user's `full_name` must match and the parsed expiry must equal
the expiry that was written. -/
def saveVerifies (user : User) (expiry : Nat) (ls : LocalStorage) : Bool :=
  match ls.ipsms_user, ls.ipsms_session_expiry with
  | some testRead, some testExpiry => testRead.full_name == user.full_name && testExpiry == expiry
  | _, _ => false

/-- `saveUserSession(user)`: bail out if Storage is unsupported or the probe
write throws; otherwise write the session (expiry = now + 24h), track the
login, and return the result of the read-back verification. -/
def saveUserSession (m : Medium) (user : User) (now : Nat) (newId env ua : String)
    (ls : LocalStorage) : Bool × LocalStorage :=
  if !m.available then (false, ls)
  else if !m.writeTestOk then (false, ls)
  else
    let ls2 := sessionWrites m user now newId env ua ls
    (saveVerifies user (now + sessionLifetimeMs) ls2, ls2)

/-- `clearUserSession()`: track the logout when a current user exists, then
remove the three session keys (the `ipsms_environment` key is not removed). -/
def clearUserSession (currentUser : Option User) (now : Nat) (ls : LocalStorage) :
    LocalStorage :=
  let ls2 :=
    match currentUser with
    | some u =>
        { ls with
            ipsms_user_activity_log := trackUserLogout u now ls.ipsms_user_activity_log }
    | none => ls
  { ls2 with ipsms_user := none, ipsms_session_expiry := none, ipsms_login_time := none }

/-- `checkExistingLogin()`: restore the saved user when both keys are present
and `now < expiry`; on an expired session clear the storage and restore
nothing. -/
def checkExistingLogin (now : Nat) (currentUser : Option User) (ls : LocalStorage) :
    Option User × LocalStorage :=
  match ls.ipsms_user, ls.ipsms_session_expiry with
  | some savedUser, some expiryTime =>
      if now < expiryTime then (some savedUser, ls)
      else (none, clearUserSession currentUser now ls)
  | _, _ => (none, ls)

/-! ### Helper lemmas -/

/-- `updateFirst` rewrites exactly the element `find?` locates: when `f`
preserves the predicate, searching the updated list finds the updated
element. -/
theorem find?_updateFirst (p : Report → Bool) (f : Report → Report)
    (hpf : ∀ x, p (f x) = p x) (l : List Report) :
    (updateFirst p f l).find? p = (l.find? p).map f := by
  induction l with
  | nil => rfl
  | cons a l ih =>
      by_cases h : p a = true
      · simp [updateFirst, h, List.find?_cons, hpf]
      · have h' : p a = false := by simpa using h
        simp [updateFirst, h', List.find?_cons, hpf, ih]

/-- `applyVerificationData` does not change the id of a report. -/
theorem applyVerificationData_id (r : Report) (verifier status notes nowIso : String) :
    (applyVerificationData r verifier status notes nowIso).id = r.id := rfl

/-! ### Demo fixtures used by the witness theorems -/

/-- A verifier user, for witnesses. -/
def demoUser : User :=
  { id := "u1", username := "alice", full_name := "A. Lee", email := "a@example.com",
    user_type := "Researcher" }

/-- A non-verifier user, for witnesses. -/
def demoCitizen : User :=
  { id := "u2", username := "bob", full_name := "B. Ray", email := "b@example.com",
    user_type := "Citizen" }

/-- A pending report, for witnesses. -/
def demoReport : Report :=
  { id := "r1", species_id := "s1", reporter_name := "Jane", notes := "spreading",
    verification_status := "Pending", verified_by := none, verification_date := none,
    verification_notes := none, species_name := none }

/-- A one-report repository, for witnesses. -/
def demoDb : MockData :=
  { reports := [demoReport], species := [{ id := "s1", scientific_name := "Pueraria montana" }] }

/-! ### C1 -/

/-- C1: for every report `r` present in the repository, `verifyReport r.id`
succeeds, returns the updated record with the given verification fields, and
an immediately following `getReportById r.id` yields a record with exactly
those verification field values. -/
theorem verifyReport_then_getReportById (db : MockData) (r : Report)
    (verifier status notes nowIso : String) (hr : r ∈ db.reports) :
    ∃ u db2, verifyReport db r.id verifier status notes nowIso = (.ok u, db2) ∧
      u.verification_status = status ∧ u.verified_by = some verifier ∧
      u.verification_date = some nowIso ∧ u.verification_notes = some notes ∧
      ∃ g, getReportById db2 r.id = .ok g ∧ g.verification_status = status ∧
        g.verified_by = some verifier ∧ g.verification_date = some nowIso ∧
        g.verification_notes = some notes := by
  have hsome : (db.reports.find? (fun x => x.id == r.id)).isSome := by
    rw [List.find?_isSome]
    exact ⟨r, hr, by simp⟩
  obtain ⟨r0, hr0⟩ := Option.isSome_iff_exists.mp hsome
  have hver : verifyReport db r.id verifier status notes nowIso =
      (Except.ok (applyVerificationData r0 verifier status notes nowIso),
        MockData.mk
          (updateFirst (fun x => x.id == r.id)
            (fun x => applyVerificationData x verifier status notes nowIso) db.reports)
          db.species) := by
    simp [verifyReport, hr0]
  refine ⟨applyVerificationData r0 verifier status notes nowIso, _, hver,
    rfl, rfl, rfl, rfl, ?_⟩
  have hfind2 : (updateFirst (fun x => x.id == r.id)
      (fun x => applyVerificationData x verifier status notes nowIso) db.reports).find?
        (fun x => x.id == r.id) =
      some (applyVerificationData r0 verifier status notes nowIso) := by
    rw [find?_updateFirst (fun x => x.id == r.id)
      (fun x => applyVerificationData x verifier status notes nowIso) (fun x => rfl) db.reports,
      hr0]
    rfl
  have hget : getReportById
      (MockData.mk
        (updateFirst (fun x => x.id == r.id)
          (fun x => applyVerificationData x verifier status notes nowIso) db.reports)
        db.species) r.id =
      Except.ok (enrich
        (MockData.mk
          (updateFirst (fun x => x.id == r.id)
            (fun x => applyVerificationData x verifier status notes nowIso) db.reports)
          db.species)
        (applyVerificationData r0 verifier status notes nowIso)) := by
    simp [getReportById, hfind2]
  exact ⟨_, hget, rfl, rfl, rfl, rfl⟩

/-- Witness for C1 at a concrete repository and report. -/
theorem verifyReport_then_getReportById_witness :
    demoReport ∈ demoDb.reports ∧
    (∃ u db2, verifyReport demoDb demoReport.id "A. Lee" "Rejected" "checked" "2024-02-01" =
        (.ok u, db2) ∧
      u.verification_status = "Rejected" ∧ u.verified_by = some "A. Lee" ∧
      u.verification_date = some "2024-02-01" ∧ u.verification_notes = some "checked" ∧
      ∃ g, getReportById db2 demoReport.id = .ok g ∧ g.verification_status = "Rejected" ∧
        g.verified_by = some "A. Lee" ∧ g.verification_date = some "2024-02-01" ∧
        g.verification_notes = some "checked") :=
  ⟨by decide,
   verifyReport_then_getReportById demoDb demoReport "A. Lee" "Rejected" "checked" "2024-02-01"
     (by decide)⟩

/-! ### C2 -/

/-- C2: `canVerifyReports u` is true iff `u` is non-null and its role
(`user_type`) is Researcher, Administrator or Government Official. -/
theorem canVerifyReports_iff (u : Option User) :
    canVerifyReports u = true ↔
      ∃ x, u = some x ∧
        (x.user_type = "Researcher" ∨ x.user_type = "Administrator" ∨
         x.user_type = "Government Official") := by
  cases u with
  | none => simp [canVerifyReports]
  | some x => simp [canVerifyReports, List.contains]

/-- Witness for C2 at concrete users. -/
theorem canVerifyReports_iff_witness :
    (canVerifyReports (some demoUser) = true ↔
      ∃ x, some demoUser = some x ∧
        (x.user_type = "Researcher" ∨ x.user_type = "Administrator" ∨
         x.user_type = "Government Official")) :=
  canVerifyReports_iff (some demoUser)

/-! ### C3 -/

/-- C3: for a null acting user, or one for which `canVerifyReports` is false,
`showVerificationModal` stays in `Closed`, surfaces a permission error,
performs no report fetch and leaves the repository unchanged. -/
theorem showVerificationModal_denied (cu : Option User) (db : MockData) (rid : String)
    (h : cu = none ∨ canVerifyReports cu = false) :
    (showVerificationModal cu db rid).state = WfState.Closed ∧
    (showVerificationModal cu db rid).errorMsg.isSome = true ∧
    (showVerificationModal cu db rid).fetchAttempted = false ∧
    (showVerificationModal cu db rid).db = db := by
  cases cu with
  | none => simp [showVerificationModal]
  | some x =>
      have hcv : canVerifyReports (some x) = false := by
        rcases h with h | h
        · exact absurd h (by simp)
        · exact h
      simp [showVerificationModal, hcv]

/-- Witness for C3 with a citizen acting user. -/
theorem showVerificationModal_denied_witness :
    ((some demoCitizen : Option User) = none ∨ canVerifyReports (some demoCitizen) = false) ∧
    ((showVerificationModal (some demoCitizen) demoDb "r1").state = WfState.Closed ∧
     (showVerificationModal (some demoCitizen) demoDb "r1").errorMsg.isSome = true ∧
     (showVerificationModal (some demoCitizen) demoDb "r1").fetchAttempted = false ∧
     (showVerificationModal (some demoCitizen) demoDb "r1").db = demoDb) :=
  ⟨Or.inr (by decide),
   showVerificationModal_denied (some demoCitizen) demoDb "r1" (Or.inr (by decide))⟩

/-! ### C4 -/

/-- C4: for an id absent from the repository, `verifyReport` fails with the
"Report not found" error and returns the repository unchanged. -/
theorem verifyReport_notFound (db : MockData) (rid verifier status notes nowIso : String)
    (h : db.reports.find? (fun r => r.id == rid) = none) :
    verifyReport db rid verifier status notes nowIso = (.error "Report not found", db) := by
  simp [verifyReport, h]

/-- Witness for C4 at a concrete repository and missing id. -/
theorem verifyReport_notFound_witness :
    demoDb.reports.find? (fun r => r.id == "does-not-exist") = none ∧
    verifyReport demoDb "does-not-exist" "A. Lee" "Verified" "" "2024-02-01" =
      (.error "Report not found", demoDb) :=
  ⟨by decide,
   verifyReport_notFound demoDb "does-not-exist" "A. Lee" "Verified" "" "2024-02-01" (by decide)⟩

/-! ### C5 -/

/-- C5: submitting with an empty decision or an empty verifier name is a
validation failure: the workflow stays in `ReviewOpen`, a message is surfaced,
`verifyReport` is not invoked and the repository is unchanged. -/
theorem submitVerification_validation (status verifier notes rid : String) (db : MockData)
    (nowIso : String) (h : status = "" ∨ verifier = "") :
    submitVerification status verifier notes rid db nowIso =
      { state := WfState.ReviewOpen,
        message := some "Please fill in all required fields.",
        db := db, applied := false } := by
  rcases h with h | h <;> simp [submitVerification, h]

/-- Witness for C5 with an empty decision string. -/
theorem submitVerification_validation_witness :
    ((("" : String) = "") ∨ (("A. Lee" : String) = "")) ∧
    submitVerification "" "A. Lee" "notes" "r1" demoDb "2024-02-01" =
      { state := WfState.ReviewOpen,
        message := some "Please fill in all required fields.",
        db := demoDb, applied := false } :=
  ⟨Or.inl rfl,
   submitVerification_validation "" "A. Lee" "notes" "r1" demoDb "2024-02-01" (Or.inl rfl)⟩

/-! ### Session-store helper lemmas -/

/-- After both session keys are removed, both are `none`, whatever the
current user was. -/
theorem clearUserSession_fields (cu : Option User) (t : Nat) (ls : LocalStorage) :
    (clearUserSession cu t ls).ipsms_user = none ∧
    (clearUserSession cu t ls).ipsms_session_expiry = none ∧
    (clearUserSession cu t ls).ipsms_login_time = none := by
  cases cu <;> simp [clearUserSession]

/-- A second `trackUserLogout` for the same user changes nothing: all of the
user's matching entries are already inactive. -/
theorem trackUserLogout_idem (u : User) (t t2 : Nat) (log : List ActivityEntry) :
    trackUserLogout u t2 (trackUserLogout u t log) = trackUserLogout u t log := by
  unfold trackUserLogout
  rw [List.map_map]
  apply List.map_congr_left
  intro e _
  by_cases hm : matchesUser u e = true <;> by_cases ha : e.isActive = true <;>
    simp [Function.comp, hm, ha, matchesUser] at * <;> simp [hm, ha, matchesUser]

/-- `trackUserLogout` never changes the length of the log. -/
theorem trackUserLogout_length (u : User) (t : Nat) (log : List ActivityEntry) :
    (trackUserLogout u t log).length = log.length := by
  simp [trackUserLogout]

/-! ### C6 -/

/-- C6: a successful `saveUserSession` followed by `checkExistingLogin` before
24 hours have elapsed restores exactly the saved user, the stored expiry is
the stored issue time plus 24h; after the expiry has passed, `checkExistingLogin`
restores nothing and clears the persisted session fields. -/
theorem session_roundtrip (m : Medium) (user : User) (now : Nat) (newId env ua : String)
    (ls : LocalStorage) (cu cu2 : Option User) (t t2 : Nat)
    (hav : m.available = true) (hw : m.writeTestOk = true) (hp : m.persist = true)
    (ht : t < now + sessionLifetimeMs) (ht2 : now + sessionLifetimeMs ≤ t2) :
    (saveUserSession m user now newId env ua ls).1 = true ∧
    checkExistingLogin t cu (saveUserSession m user now newId env ua ls).2 =
      (some user, (saveUserSession m user now newId env ua ls).2) ∧
    (saveUserSession m user now newId env ua ls).2.ipsms_login_time = some now ∧
    (saveUserSession m user now newId env ua ls).2.ipsms_session_expiry =
      some (now + sessionLifetimeMs) ∧
    (checkExistingLogin t2 cu2 (saveUserSession m user now newId env ua ls).2).1 = none ∧
    (checkExistingLogin t2 cu2 (saveUserSession m user now newId env ua ls).2).2.ipsms_user =
      none ∧
    (checkExistingLogin t2 cu2
      (saveUserSession m user now newId env ua ls).2).2.ipsms_session_expiry = none ∧
    (checkExistingLogin t2 cu2
      (saveUserSession m user now newId env ua ls).2).2.ipsms_login_time = none := by
  have hsave : saveUserSession m user now newId env ua ls =
      (true, sessionWrites m user now newId env ua ls) := by
    simp [saveUserSession, hav, hw, sessionWrites, hp, saveVerifies]
  have hnot : ¬ t2 < now + sessionLifetimeMs := Nat.not_lt.mpr ht2
  rw [hsave]
  refine ⟨rfl, ?_, by simp [sessionWrites, hp], by simp [sessionWrites, hp], ?_, ?_⟩
  · simp [checkExistingLogin, sessionWrites, hp, ht]
  · simp [checkExistingLogin, sessionWrites, hp, hnot]
  · have hc := clearUserSession_fields cu2 t2 (sessionWrites m user now newId env ua ls)
    simp [checkExistingLogin, sessionWrites, hp, hnot] at *
    exact hc

/-- Witness for C6 at concrete values. -/
theorem session_roundtrip_witness :
    ((Medium.mk true true true).available = true ∧
     (Medium.mk true true true).writeTestOk = true ∧
     (Medium.mk true true true).persist = true ∧
     (1000 : Nat) < 0 + sessionLifetimeMs ∧ 0 + sessionLifetimeMs ≤ 90000000) ∧
    ((saveUserSession (Medium.mk true true true) demoUser 0 "e1" "env" "ua"
        (LocalStorage.mk none none none none [])).1 = true ∧
     checkExistingLogin 1000 none (saveUserSession (Medium.mk true true true) demoUser 0
        "e1" "env" "ua" (LocalStorage.mk none none none none [])).2 =
      (some demoUser, (saveUserSession (Medium.mk true true true) demoUser 0
        "e1" "env" "ua" (LocalStorage.mk none none none none [])).2) ∧
     (saveUserSession (Medium.mk true true true) demoUser 0 "e1" "env" "ua"
        (LocalStorage.mk none none none none [])).2.ipsms_login_time = some 0 ∧
     (saveUserSession (Medium.mk true true true) demoUser 0 "e1" "env" "ua"
        (LocalStorage.mk none none none none [])).2.ipsms_session_expiry =
      some (0 + sessionLifetimeMs) ∧
     (checkExistingLogin 90000000 none (saveUserSession (Medium.mk true true true) demoUser 0
        "e1" "env" "ua" (LocalStorage.mk none none none none [])).2).1 = none ∧
     (checkExistingLogin 90000000 none (saveUserSession (Medium.mk true true true) demoUser 0
        "e1" "env" "ua" (LocalStorage.mk none none none none [])).2).2.ipsms_user = none ∧
     (checkExistingLogin 90000000 none (saveUserSession (Medium.mk true true true) demoUser 0
        "e1" "env" "ua"
        (LocalStorage.mk none none none none [])).2).2.ipsms_session_expiry = none ∧
     (checkExistingLogin 90000000 none (saveUserSession (Medium.mk true true true) demoUser 0
        "e1" "env" "ua"
        (LocalStorage.mk none none none none [])).2).2.ipsms_login_time = none) :=
  ⟨⟨rfl, rfl, rfl, by decide, by decide⟩,
   session_roundtrip (Medium.mk true true true) demoUser 0 "e1" "env" "ua"
     (LocalStorage.mk none none none none []) none none 1000 90000000
     rfl rfl rfl (by decide) (by decide)⟩

/-! ### C7 -/

/-- C7: `saveUserSession` returns false exactly when the medium is unavailable
(Storage unsupported or the probe write throwing) or the read-back
verification of the written session fails; when the medium is available and
persists writes, it returns true having persisted the user, the expiry
`now + 24h` and the issue time `now`. -/
theorem saveUserSession_success_iff (m : Medium) (user : User) (now : Nat)
    (newId env ua : String) (ls : LocalStorage) :
    ((saveUserSession m user now newId env ua ls).1 = false ↔
      (m.available = false ∨ m.writeTestOk = false ∨
        saveVerifies user (now + sessionLifetimeMs)
          (sessionWrites m user now newId env ua ls) = false)) ∧
    (m.available = true → m.writeTestOk = true → m.persist = true →
      saveUserSession m user now newId env ua ls =
        (true, sessionWrites m user now newId env ua ls) ∧
      (sessionWrites m user now newId env ua ls).ipsms_user = some user ∧
      (sessionWrites m user now newId env ua ls).ipsms_session_expiry =
        some (now + sessionLifetimeMs) ∧
      (sessionWrites m user now newId env ua ls).ipsms_login_time = some now) := by
  constructor
  · rcases m with ⟨av, wt, pe⟩
    cases av <;> cases wt <;> simp [saveUserSession]
  · intro hav hw hp
    refine ⟨?_, by simp [sessionWrites, hp], by simp [sessionWrites, hp],
      by simp [sessionWrites, hp]⟩
    simp [saveUserSession, hav, hw, sessionWrites, hp, saveVerifies]

/-- Witness for C7 at concrete values. -/
theorem saveUserSession_success_iff_witness :
    (((saveUserSession (Medium.mk true true true) demoUser 0 "e1" "env" "ua"
        (LocalStorage.mk none none none none [])).1 = false ↔
      ((Medium.mk true true true).available = false ∨
        (Medium.mk true true true).writeTestOk = false ∨
        saveVerifies demoUser (0 + sessionLifetimeMs)
          (sessionWrites (Medium.mk true true true) demoUser 0 "e1" "env" "ua"
            (LocalStorage.mk none none none none [])) = false)) ∧
     ((Medium.mk true true true).available = true →
      (Medium.mk true true true).writeTestOk = true →
      (Medium.mk true true true).persist = true →
      saveUserSession (Medium.mk true true true) demoUser 0 "e1" "env" "ua"
          (LocalStorage.mk none none none none []) =
        (true, sessionWrites (Medium.mk true true true) demoUser 0 "e1" "env" "ua"
          (LocalStorage.mk none none none none [])) ∧
      (sessionWrites (Medium.mk true true true) demoUser 0 "e1" "env" "ua"
        (LocalStorage.mk none none none none [])).ipsms_user = some demoUser ∧
      (sessionWrites (Medium.mk true true true) demoUser 0 "e1" "env" "ua"
        (LocalStorage.mk none none none none [])).ipsms_session_expiry =
        some (0 + sessionLifetimeMs) ∧
      (sessionWrites (Medium.mk true true true) demoUser 0 "e1" "env" "ua"
        (LocalStorage.mk none none none none [])).ipsms_login_time = some 0)) :=
  saveUserSession_success_iff (Medium.mk true true true) demoUser 0 "e1" "env" "ua"
    (LocalStorage.mk none none none none [])

/-! ### C9 -/

/-- C9: `clearUserSession` removes all persisted session fields (the user, the
expiry and the issue time) unconditionally, and it is idempotent: clearing a
second time, at any later moment, leaves the storage exactly as after the
first clear. -/
theorem clearUserSession_unconditional_idem (cu : Option User) (t t2 : Nat)
    (ls : LocalStorage) :
    (clearUserSession cu t ls).ipsms_user = none ∧
    (clearUserSession cu t ls).ipsms_session_expiry = none ∧
    (clearUserSession cu t ls).ipsms_login_time = none ∧
    clearUserSession cu t2 (clearUserSession cu t ls) = clearUserSession cu t ls := by
  refine ⟨(clearUserSession_fields cu t ls).1, (clearUserSession_fields cu t ls).2.1,
    (clearUserSession_fields cu t ls).2.2, ?_⟩
  cases cu with
  | none => simp [clearUserSession]
  | some u => simp [clearUserSession, trackUserLogout_idem]

/-- Witness for C9 at concrete values (unneeded hypotheses, kept for the
record: the theorem is applied at a concrete clear). -/
theorem clearUserSession_unconditional_idem_witness :
    (clearUserSession (some demoUser) 5 (LocalStorage.mk (some demoUser) (some 9) (some 1)
        (some "env") [])).ipsms_user = none ∧
    (clearUserSession (some demoUser) 5 (LocalStorage.mk (some demoUser) (some 9) (some 1)
        (some "env") [])).ipsms_session_expiry = none ∧
    (clearUserSession (some demoUser) 5 (LocalStorage.mk (some demoUser) (some 9) (some 1)
        (some "env") [])).ipsms_login_time = none ∧
    clearUserSession (some demoUser) 7 (clearUserSession (some demoUser) 5
        (LocalStorage.mk (some demoUser) (some 9) (some 1) (some "env") [])) =
      clearUserSession (some demoUser) 5
        (LocalStorage.mk (some demoUser) (some 9) (some 1) (some "env") []) :=
  clearUserSession_unconditional_idem (some demoUser) 5 7
    (LocalStorage.mk (some demoUser) (some 9) (some 1) (some "env") [])

/-! ### Activity-log lemmas for C8 and C10 -/

/-- Number of active log entries matching a user under the code's matching
condition (`userId` or `username`). -/
def countActiveMatching (u : User) (log : List ActivityEntry) : Nat :=
  (log.filter (fun e => matchesUser u e && e.isActive)).length

/-- The fresh login entry always matches its own user (its `username` field is
the user's username). -/
theorem matchesUser_loginEntry (u : User) (t : Nat) (nid env ua : String) :
    matchesUser u (loginEntry u t nid env ua) = true := by
  simp [matchesUser, loginEntry]

/-- After the deactivation pass of `trackUserLogin`, no entry matching the
user is still active. -/
theorem marked_filter_nil (u : User) (t : Nat) (log : List ActivityEntry) :
    (log.map (fun e => if matchesUser u e then deactivateAt t e else e)).filter
      (fun e => matchesUser u e && e.isActive) = [] := by
  rw [List.filter_eq_nil_iff]
  intro a ha
  simp only [List.mem_map] at ha
  obtain ⟨e, he, rfl⟩ := ha
  by_cases hm : matchesUser u e = true
  · rw [if_pos hm]
    unfold deactivateAt
    by_cases hae : e.isActive = true
    · rw [if_pos hae]
      simp
    · rw [if_neg hae]
      simp_all
  · rw [if_neg hm]
    simp [hm]

/-- After `trackUserLogout`, no entry matching the user is still active. -/
theorem logout_filter_nil (u : User) (t : Nat) (log : List ActivityEntry) :
    (trackUserLogout u t log).filter (fun e => matchesUser u e && e.isActive) = [] := by
  rw [List.filter_eq_nil_iff]
  intro a ha
  simp only [trackUserLogout, List.mem_map] at ha
  obtain ⟨e, he, rfl⟩ := ha
  by_cases hc : (matchesUser u e && e.isActive) = true
  · rw [if_pos hc]
    simp
  · rw [if_neg hc]
    exact hc

/-- `trackUserLogin` produces a sublist of the deactivated log with the new
entry appended (the cap only drops a prefix). -/
theorem trackUserLogin_sublist (u : User) (t : Nat) (nid env ua : String)
    (log : List ActivityEntry) :
    List.Sublist (trackUserLogin u t nid env ua log)
      (log.map (fun e => if matchesUser u e then deactivateAt t e else e) ++
        [loginEntry u t nid env ua]) := by
  simp only [trackUserLogin]
  split
  · exact List.drop_sublist _ _
  · exact List.Sublist.refl _

/-- `trackUserLogin` produces a suffix of the deactivated log with the new
entry appended: the cap evicts the oldest entries first. -/
theorem trackUserLogin_suffix (u : User) (t : Nat) (nid env ua : String)
    (log : List ActivityEntry) :
    trackUserLogin u t nid env ua log <:+
      (log.map (fun e => if matchesUser u e then deactivateAt t e else e) ++
        [loginEntry u t nid env ua]) := by
  simp only [trackUserLogin]
  split
  · exact List.drop_suffix _ _
  · exact List.suffix_refl _

/-- Length of the capped log after `trackUserLogin`. -/
theorem trackUserLogin_length (u : User) (t : Nat) (nid env ua : String)
    (log : List ActivityEntry) (h : log.length ≤ 100) :
    (trackUserLogin u t nid env ua log).length = min (log.length + 1) 100 := by
  simp only [trackUserLogin]
  by_cases h100 : log.length + 1 > 100
  · rw [if_pos (by simpa using h100)]
    simp only [List.length_drop, List.length_append, List.length_map, List.length_singleton]
    omega
  · rw [if_neg (by simpa using h100)]
    simp only [List.length_append, List.length_map, List.length_singleton]
    omega

/-- The new login entry is the last entry of the capped log. -/
theorem trackUserLogin_getLast (u : User) (t : Nat) (nid env ua : String)
    (log : List ActivityEntry) (h : log.length ≤ 100) :
    (trackUserLogin u t nid env ua log).getLast? = some (loginEntry u t nid env ua) := by
  simp only [trackUserLogin]
  by_cases h100 : log.length + 1 > 100
  · rw [if_pos (by simpa using h100)]
    rw [List.drop_append_of_le_length (by
      simp only [List.length_append, List.length_map, List.length_singleton]
      omega)]
    exact List.getLast?_concat _
  · rw [if_neg (by simpa using h100)]
    exact List.getLast?_concat _

/-! ### C8 -/

/-- A storage state with one active log entry, for the C8 counterexample. -/
def demoActiveLS : LocalStorage :=
  { ipsms_user := some demoUser, ipsms_session_expiry := some sessionLifetimeMs,
    ipsms_login_time := some 0, ipsms_environment := some "env",
    ipsms_user_activity_log := [loginEntry demoUser 0 "e1" "env" "ua"] }

/-- C8 counterexample: a successful clear does NOT append an entry to the
activity log — `trackUserLogout` updates the user's active entry in place, so
the log keeps its length. -/
theorem clearUserSession_no_append :
    ¬ ((clearUserSession (some demoUser) 1000 demoActiveLS).ipsms_user_activity_log.length =
        demoActiveLS.ipsms_user_activity_log.length + 1) := by
  decide

/-- C8 (amended): every successful save appends the new login entry to the
activity log, capped to the 100 most recent entries with the oldest evicted
first (the result is a suffix of the updated log plus the new entry, so the
length never exceeds 100); a clear records the logout by updating entries in
place, never changing the log's length. -/
theorem save_appends_clear_updates_in_place (m : Medium) (u : User) (now : Nat)
    (newId env ua : String) (ls : LocalStorage) (cu : Option User) (t2 : Nat)
    (hav : m.available = true) (hw : m.writeTestOk = true) (hp : m.persist = true)
    (hlen : ls.ipsms_user_activity_log.length ≤ 100) :
    ((saveUserSession m u now newId env ua ls).2.ipsms_user_activity_log.length =
        min (ls.ipsms_user_activity_log.length + 1) 100) ∧
    ((saveUserSession m u now newId env ua ls).2.ipsms_user_activity_log.getLast? =
        some (loginEntry u now newId env ua)) ∧
    ((saveUserSession m u now newId env ua ls).2.ipsms_user_activity_log <:+
        (ls.ipsms_user_activity_log.map
            (fun e => if matchesUser u e then deactivateAt now e else e) ++
          [loginEntry u now newId env ua])) ∧
    ((clearUserSession cu t2 ls).ipsms_user_activity_log.length =
        ls.ipsms_user_activity_log.length) := by
  have hsave : (saveUserSession m u now newId env ua ls).2 =
      sessionWrites m u now newId env ua ls := by
    simp [saveUserSession, hav, hw]
  have hlog : (sessionWrites m u now newId env ua ls).ipsms_user_activity_log =
      trackUserLogin u now newId env ua ls.ipsms_user_activity_log := by
    simp [sessionWrites, hp]
  rw [hsave, hlog]
  refine ⟨trackUserLogin_length u now newId env ua _ hlen,
    trackUserLogin_getLast u now newId env ua _ hlen,
    trackUserLogin_suffix u now newId env ua _, ?_⟩
  cases cu with
  | none => simp [clearUserSession]
  | some v => simp [clearUserSession, trackUserLogout_length]

/-- Witness for the amended C8 at concrete values. -/
theorem save_appends_clear_updates_in_place_witness :
    demoActiveLS.ipsms_user_activity_log.length ≤ 100 ∧
    (((saveUserSession (Medium.mk true true true) demoUser 7 "e2" "env" "ua"
        demoActiveLS).2.ipsms_user_activity_log.length =
        min (demoActiveLS.ipsms_user_activity_log.length + 1) 100) ∧
     ((saveUserSession (Medium.mk true true true) demoUser 7 "e2" "env" "ua"
        demoActiveLS).2.ipsms_user_activity_log.getLast? =
        some (loginEntry demoUser 7 "e2" "env" "ua")) ∧
     ((saveUserSession (Medium.mk true true true) demoUser 7 "e2" "env" "ua"
        demoActiveLS).2.ipsms_user_activity_log <:+
        (demoActiveLS.ipsms_user_activity_log.map
            (fun e => if matchesUser demoUser e then deactivateAt 7 e else e) ++
          [loginEntry demoUser 7 "e2" "env" "ua"])) ∧
     ((clearUserSession (some demoUser) 9 demoActiveLS).ipsms_user_activity_log.length =
        demoActiveLS.ipsms_user_activity_log.length)) :=
  ⟨by decide,
   save_appends_clear_updates_in_place (Medium.mk true true true) demoUser 7 "e2" "env" "ua"
     demoActiveLS (some demoUser) 9 rfl rfl rfl (by decide)⟩

/-! ### C10 -/

/-- A user sharing an id with `overlapW` and a username with `overlapZ`, for
the C10 counterexample. -/
def overlapV : User :=
  { id := "1", username := "v", full_name := "V", email := "v@x", user_type := "Citizen" }

/-- A user whose id collides with `overlapV`'s. -/
def overlapW : User :=
  { id := "1", username := "w", full_name := "W", email := "w@x", user_type := "Citizen" }

/-- A user whose username collides with `overlapV`'s. -/
def overlapZ : User :=
  { id := "3", username := "v", full_name := "Z", email := "z@x", user_type := "Citizen" }

/-- The log after recording logins of `overlapV`, then `overlapW`, then
`overlapZ`. -/
def overlapLog : List ActivityEntry :=
  trackUserLogin overlapZ 2 "i3" "env" "ua"
    (trackUserLogin overlapW 1 "i2" "env" "ua"
      (trackUserLogin overlapV 0 "i1" "env" "ua" []))

/-- C10 counterexample: after the login of `overlapZ` is recorded, TWO log
entries matching `overlapV` (by userId or username) are active — the entry of
`overlapW` (same userId) and the new entry of `overlapZ` (same username) — so
"at most one active entry per user" fails for `overlapV`. -/
theorem overlap_two_active_entries :
    ¬ (countActiveMatching overlapV overlapLog ≤ 1) := by
  decide

/-- C10 (amended): for the user whose login is being recorded, at most one log
entry matching that user (by userId or username) is active afterwards, namely
the newly appended entry — `trackUserLogin` first deactivates all of the
user's matching entries and then appends the new active entry; and after
`trackUserLogout` for a user, none of that user's matching entries is
active. -/
theorem track_login_logout_single_active (u : User) (t t2 : Nat) (nid env ua : String)
    (log : List ActivityEntry) :
    countActiveMatching u (trackUserLogin u t nid env ua log) ≤ 1 ∧
    (∀ e ∈ trackUserLogin u t nid env ua log,
        matchesUser u e = true → e.isActive = true → e = loginEntry u t nid env ua) ∧
    countActiveMatching u (trackUserLogout u t2 log) = 0 := by
  have hsub := trackUserLogin_sublist u t nid env ua log
  have happ : countActiveMatching u
      (log.map (fun e => if matchesUser u e then deactivateAt t e else e) ++
        [loginEntry u t nid env ua]) = 1 := by
    unfold countActiveMatching
    rw [List.filter_append, marked_filter_nil]
    have hb : (matchesUser u (loginEntry u t nid env ua) &&
        (loginEntry u t nid env ua).isActive) = true := by
      rw [matchesUser_loginEntry]
      rfl
    simp [hb]
  refine ⟨?_, ?_, ?_⟩
  · calc countActiveMatching u (trackUserLogin u t nid env ua log) ≤
        countActiveMatching u
          (log.map (fun e => if matchesUser u e then deactivateAt t e else e) ++
            [loginEntry u t nid env ua]) :=
            ((hsub.filter (fun e => matchesUser u e && e.isActive)).length_le)
      _ = 1 := happ
  · intro e he hm ha
    have he2 := hsub.subset he
    rcases List.mem_append.mp he2 with h | h
    · exfalso
      have hmem : e ∈ (log.map
          (fun e => if matchesUser u e then deactivateAt t e else e)).filter
            (fun e => matchesUser u e && e.isActive) :=
        List.mem_filter.mpr ⟨h, by simp [hm, ha]⟩
      rw [marked_filter_nil] at hmem
      simp at hmem
    · simpa using h
  · unfold countActiveMatching
    rw [logout_filter_nil]
    rfl

/-- Witness for the amended C10 at concrete values. -/
theorem track_login_logout_single_active_witness :
    countActiveMatching demoUser (trackUserLogin demoUser 3 "i9" "env" "ua" []) ≤ 1 ∧
    countActiveMatching demoUser (trackUserLogout demoUser 4 []) = 0 :=
  ⟨(track_login_logout_single_active demoUser 3 4 "i9" "env" "ua" []).1,
   (track_login_logout_single_active demoUser 3 4 "i9" "env" "ua" []).2.2⟩

end IPSMS
